import Mathlib

/-!
Shallow embedding of the chart layout engine of `go-vedic-astro-charts`
(Go package `parashari`: chart.go, north_chart.go, south_chart.go).

The embedding keeps the source's data model and per-slot computations:
sign-name resolution (`RashiToNumber`), abbreviation/display-name lookup,
the occupant-collection loops of `GenerateSouthChart` / `GenerateNorthChart`
(which append retrograde/combust suffixes and split labels into the
"regular" and "special lagna" groups), the rotation arithmetic of the
North style (`getRashiForPosition`), the label-stacking draw loops, and
the style dispatch of `GenerateChart`.

Two deliberate modelling choices:
* The Go `map[string]*Planet` is embedded as an association list
  `List (String × Planet)`; the list order stands for the map's iteration
  order, which Go leaves unspecified (and randomizes).  All occupant
  collection is a fold over that list, exactly mirroring the
  `for planetName, planet := range input.Planets` loops.
* `IsSpecialLagnaAbbrev` is called by both generators but its definition
  is not part of the sources here; following the spec (§4.2: classification
  is by a caller-defined predicate on the resulting label) it is taken as
  an explicit parameter `isSpecial : String → Bool` of every function that
  needs it.

Raster geometry (line/rectangle strokes, fonts, PNG encoding) is external
to the layout engine; the render result is modelled as the per-slot
occupant data plus the text draw operations with their exact anchor
coordinates, which is what the claims quantify over.
-/

namespace Parashari

/-- Mirrors the Go struct `Planet` (chart.go): sign name, retrograde and
combust flags, upagraha flag, optional custom display name. -/
structure Planet where
  rashi : String
  isRetrograde : Bool := false
  isCombust : Bool := false
  isUpagraha : Bool := false
  display : String := ""
deriving DecidableEq, Repr

/-- Mirrors the Go struct `ChartInput` (chart.go).  `planets` is the Go
`map[string]*Planet` as an association list whose order is the map's
iteration order. -/
structure ChartInput where
  chartType : String
  planets : List (String × Planet) := []
  lagna : Option Planet := none
  centerText : String := ""
deriving DecidableEq, Repr

/-- Go's `strings.ToLower`, modelled as ASCII case folding over the
character list (all registry keys are ASCII). -/
def toLowerStr (s : String) : String :=
  ⟨s.data.map Char.toLower⟩

/-- Mirrors `RashiToNumber` (chart.go): case-insensitive sign-name lookup,
returning 1..12, or 0 for an unrecognized name. -/
def RashiToNumber (rashi : String) : Nat :=
  match toLowerStr rashi with
  | "aries" => 1
  | "taurus" => 2
  | "gemini" => 3
  | "cancer" => 4
  | "leo" => 5
  | "virgo" => 6
  | "libra" => 7
  | "scorpio" => 8
  | "sagittarius" => 9
  | "capricorn" => 10
  | "aquarius" => 11
  | "pisces" => 12
  | _ => 0

/-- Mirrors `GetPlanetAbbreviation` (chart.go); a Go map lookup of a
missing key yields the zero value `""`. -/
def GetPlanetAbbreviation (planetName : String) : String :=
  match toLowerStr planetName with
  | "sun" => "Su"
  | "moon" => "Mo"
  | "mars" => "Ma"
  | "mercury" => "Me"
  | "jupiter" => "Ju"
  | "venus" => "Ve"
  | "saturn" => "Sa"
  | "rahu" => "Ra"
  | "ketu" => "Ke"
  | "lagna" => "Asc"
  | "upaketu" => "Up"
  | "mandi" => "Mn"
  | "gulika" => "Gu"
  | "yamaghantaka" => "Ya"
  | "ardhaprahara" => "Ar"
  | "kala" => "Ka"
  | "dhuma" => "Dh"
  | "vyatipata" => "Vy"
  | "parivesha" => "Pa"
  | "indrachapa" => "In"
  | "upagraha" => "Up"
  | _ => ""

/-- Mirrors `GetPlanetDisplayName` (chart.go): custom display name if set,
else the canonical abbreviation. -/
def GetPlanetDisplayName (planetName : String) (p : Planet) : String :=
  if p.display ≠ "" then p.display else GetPlanetAbbreviation planetName

/-- The label built for a planet inside both generators' planet loops:
display name, then `"R"` appended if retrograde, then `"C"` if combust
(north_chart.go lines 215-221, south_chart.go lines 298-305). -/
def suffixedLabel (name : String) (p : Planet) : String :=
  let base := GetPlanetDisplayName name p
  let withR := if p.isRetrograde then base ++ "R" else base
  if p.isCombust then withR ++ "C" else withR

/-- Modelled from the spec: `IsSpecialLagnaAbbrev` is called by both chart
generators (north_chart.go lines 224 and 293, south_chart.go line 308) but
its definition is not among the given sources.  Spec §4.2 describes it as
a caller-defined predicate deciding whether the resulting label marks a
special variant of the ascendant, so the embedding takes such a predicate
`isSpecial : String → Bool` as an explicit parameter; every theorem
quantifies over it and witnesses instantiate it concretely. -/
def IsSpecialLagnaAbbrev (isSpecial : String → Bool) (lab : String) : Bool :=
  isSpecial lab

/-- The planet loop shared (verbatim, inlined) by `GenerateSouthChart` and
`GenerateNorthChart`: walk the planets in iteration order, keep those whose
resolved sign is positive and equals `rashiNum`, build the suffixed label,
and append it to the special group if the classification predicate accepts
it, else to the regular group. -/
def collectPlanets (isSpecial : String → Bool) (rashiNum : Nat) :
    List (String × Planet) → List String × List String → List String × List String
  | [], acc => acc
  | e :: ps, acc =>
    let planetRashiNum := RashiToNumber e.2.rashi
    let acc2 :=
      if 0 < planetRashiNum ∧ planetRashiNum = rashiNum then
        let lab := suffixedLabel e.1 e.2
        if IsSpecialLagnaAbbrev isSpecial lab then (acc.1, acc.2 ++ [lab])
        else (acc.1 ++ [lab], acc.2)
      else acc
    collectPlanets isSpecial rashiNum ps acc2

/-- The raw lagna sign: 0 when absent, else `RashiToNumber` of its name
(both generators compute this before defaulting). -/
def lagnaRashiRaw (lagna : Option Planet) : Nat :=
  match lagna with
  | some p => RashiToNumber p.rashi
  | none => 0

/-- The defaulted lagna sign used by both generators: 0 becomes 1 (Aries). -/
def lagnaRashiOf (lagna : Option Planet) : Nat :=
  if lagnaRashiRaw lagna = 0 then 1 else lagnaRashiRaw lagna

/-- The lagna's display label, `GetPlanetDisplayName("lagna", lagna)`. -/
def lagnaLabelOf (lagna : Option Planet) : String :=
  match lagna with
  | some p => GetPlanetDisplayName "lagna" p
  | none => GetPlanetAbbreviation "lagna"

/-- One South-chart house as drawn: the sign-number text, whether the
double-diagonal lagna mark is stroked, and the two occupant label groups. -/
structure HouseCell where
  rashiLabel : String
  lagnaMark : Bool
  regular : List String
  special : List String
deriving DecidableEq, Repr

/-- Body of the `for houseNum := 1; houseNum <= 12` loop of
`GenerateSouthChart` (south_chart.go lines 226-354), with the quantities
the Go code reads from `input` (lagna presence, defaulted lagna sign,
lagna label) passed explicitly: `rashiNum := houseNum`, lagna added first
and unsuffixed to the regular group when its sign matches, then the
planet loop. -/
def southHouseCellCore (isSpecial : String → Bool) (planets : List (String × Planet))
    (hasLagna : Bool) (lagnaRashi : Nat) (lagnaLabel : String) (houseNum : Nat) : HouseCell :=
  let rashiNum := houseNum
  let lagnaHere : Bool := hasLagna && decide (0 < lagnaRashi) && decide (rashiNum = lagnaRashi)
  let regular0 : List String := if lagnaHere then [lagnaLabel] else []
  let groups := collectPlanets isSpecial rashiNum planets (regular0, [])
  { rashiLabel := toString rashiNum
    lagnaMark := lagnaHere
    regular := groups.1
    special := groups.2 }

/-- The South-chart house cell for `input`, reading the lagna-derived
quantities the way `GenerateSouthChart` computes them at lines 176-186. -/
def southHouseCell (isSpecial : String → Bool) (input : ChartInput) (houseNum : Nat) : HouseCell :=
  southHouseCellCore isSpecial input.planets input.lagna.isSome
    (lagnaRashiOf input.lagna) (lagnaLabelOf input.lagna) houseNum

/-- The whole occupant content of a South chart: the 12 house cells plus
the center-text lines (split on newlines, empty lines skipped,
south_chart.go lines 357-377). -/
structure SouthChart where
  cells : List HouseCell
  centerLines : List String
deriving DecidableEq, Repr

/-- `GenerateSouthChart`'s occupant/label output for houses 1..12. -/
def southChartModelCore (isSpecial : String → Bool) (planets : List (String × Planet))
    (hasLagna : Bool) (lagnaRashi : Nat) (lagnaLabel : String) (centerText : String) : SouthChart :=
  { cells := (List.range 12).map fun k =>
      southHouseCellCore isSpecial planets hasLagna lagnaRashi lagnaLabel (k + 1)
    centerLines :=
      if centerText ≠ "" then (centerText.splitOn "\n").filter (fun l => l ≠ "") else [] }

/-- Occupant/label model of `GenerateSouthChart input`. -/
def southChartModel (isSpecial : String → Bool) (input : ChartInput) : SouthChart :=
  southChartModelCore isSpecial input.planets input.lagna.isSome
    (lagnaRashiOf input.lagna) (lagnaLabelOf input.lagna) input.centerText

/-- Mirrors the closure `getRashiForPosition` of `GenerateNorthChart`
(north_chart.go lines 164-174): position 1 is the lagna sign; position
N ≥ 2 is `(lagnaRashiNum + (N-1)) % 12`, with 0 mapped to 12. -/
def getRashiForPosition (lagnaRashiNum position : Nat) : Nat :=
  if position = 1 then lagnaRashiNum
  else
    let offset := position - 1
    let r := (lagnaRashiNum + offset) % 12
    if r = 0 then 12 else r

/-- One North-chart position as drawn: the sign number shown there and the
two occupant label groups. -/
structure PositionCell where
  rashiNum : Nat
  regular : List String
  special : List String
deriving DecidableEq, Repr

/-- The occupant collection `GenerateNorthChart` performs for one position
(lines 199-230 for position 1, lines 266-299 for positions 2..12; both are
the same computation over `getRashiForPosition`): lagna added first and
unsuffixed when the position's sign equals the lagna sign, then the planet
loop. -/
def northPositionCellCore (isSpecial : String → Bool) (planets : List (String × Planet))
    (hasLagna : Bool) (lagnaRashiNum : Nat) (lagnaLabel : String) (position : Nat) : PositionCell :=
  let rashiNum := getRashiForPosition lagnaRashiNum position
  let lagnaHere : Bool := hasLagna && decide (rashiNum = lagnaRashiNum)
  let regular0 : List String := if lagnaHere then [lagnaLabel] else []
  let groups := collectPlanets isSpecial rashiNum planets (regular0, [])
  { rashiNum := rashiNum
    regular := groups.1
    special := groups.2 }

/-- The North-chart position cell for `input`. -/
def northPositionCell (isSpecial : String → Bool) (input : ChartInput) (position : Nat) : PositionCell :=
  northPositionCellCore isSpecial input.planets input.lagna.isSome
    (lagnaRashiOf input.lagna) (lagnaLabelOf input.lagna) position

/-- The whole occupant content of a North chart: the lagna sign number
drawn at the chart center-top and the 12 position cells. -/
structure NorthChart where
  lagnaNumber : Nat
  cells : List PositionCell
deriving DecidableEq, Repr

/-- Occupant/label model of `GenerateNorthChart input`. -/
def northChartModel (isSpecial : String → Bool) (input : ChartInput) : NorthChart :=
  { lagnaNumber := lagnaRashiOf input.lagna
    cells := (List.range 12).map fun k =>
      northPositionCellCore isSpecial input.planets input.lagna.isSome
        (lagnaRashiOf input.lagna) (lagnaLabelOf input.lagna) (k + 1) }

/-- The two chart models a successful render can produce. -/
inductive ChartOutput where
  | south : SouthChart → ChartOutput
  | north : NorthChart → ChartOutput
deriving DecidableEq, Repr

/-- Mirrors `GenerateChart` (chart.go lines 137-161): empty style is
rejected first with its own message, then the style switch with a default
branch naming the offending value.  Go returns `("", err)` on failure;
the error branch of `Except` models that no image bytes are produced. -/
def GenerateChart (isSpecial : String → Bool) (input : ChartInput) : Except String ChartOutput :=
  if input.chartType = "" then .error "chart_type is required"
  else if input.chartType = "south" then .ok (.south (southChartModel isSpecial input))
  else if input.chartType = "north" then .ok (.north (northChartModel isSpecial input))
  else .error ("unsupported chart type: " ++ input.chartType)

/-- A text draw call `DrawStringAnchored(text, x, y, ax, 0.5)`; all label
stacking uses vertical anchor 0.5, so only `ax` is recorded. -/
structure DrawOp where
  text : String
  x : ℚ
  y : ℚ
  ax : ℚ
deriving DecidableEq, Repr

/-- The `for i, planetAbbrev := range regularPlanets` draw loop: entry at
loop index `i` is drawn at `y0 + i*step`, right-anchored (`ax = 1`) at
`x` (south_chart.go lines 327-335, north_chart.go lines 322-331). -/
def drawStack (x y0 step ax : ℚ) : List String → Nat → List DrawOp
  | [], _ => []
  | l :: ls, i =>
    { text := l, x := x, y := y0 + (i : ℚ) * step, ax := ax } :: drawStack x y0 step ax ls (i + 1)

/-- The `for i := 0; i < maxItems; i++` special-group draw loop: when
`i < len(special)`, `special[i]` is drawn at `y0 + i*step`, left-anchored
(`ax = 0`) at `x` (south_chart.go lines 337-349, north_chart.go lines
333-345). -/
def drawSpecialOps (x y0 step : ℚ) (special : List String) (maxItems : Nat) : List DrawOp :=
  (List.range maxItems).filterMap fun i =>
    (special.get? i).map fun s => { text := s, x := x, y := y0 + (i : ℚ) * step, ax := 0 }

/-- All label draw calls for one cell: nothing when both groups are empty,
else the regular stack followed by the special loop bounded by
`maxItems = max (len regular) (len special)`. -/
def cellDrawOps (leftX rightX y0 step : ℚ) (regular special : List String) : List DrawOp :=
  if 0 < regular.length ∨ 0 < special.length then
    drawStack leftX y0 step 1 regular 0 ++
      drawSpecialOps rightX y0 step special (max regular.length special.length)
  else []

/-- An axis-aligned integer rectangle, as Go's `image.Rectangle`. -/
structure Rect where
  minX : Int
  minY : Int
  maxX : Int
  maxY : Int
deriving DecidableEq, Repr

/-- The `houseRects` table of `GenerateSouthChart` (south_chart.go lines
193-215) evaluated at padding 40, cellSize 180; a missing key yields Go's
zero rectangle. -/
def houseRect (n : Nat) : Rect :=
  match n with
  | 12 => ⟨40, 40, 220, 220⟩
  | 1 => ⟨220, 40, 400, 220⟩
  | 2 => ⟨400, 40, 580, 220⟩
  | 3 => ⟨580, 40, 760, 220⟩
  | 4 => ⟨580, 220, 760, 400⟩
  | 5 => ⟨580, 400, 760, 580⟩
  | 6 => ⟨580, 580, 760, 760⟩
  | 7 => ⟨400, 580, 580, 760⟩
  | 8 => ⟨220, 580, 400, 760⟩
  | 9 => ⟨40, 580, 220, 760⟩
  | 10 => ⟨40, 400, 220, 580⟩
  | 11 => ⟨40, 220, 220, 400⟩
  | _ => ⟨0, 0, 0, 0⟩

/-- `centerX` of a South-chart house: horizontal middle of its rectangle
(south_chart.go line 319). -/
def southCenterX (houseNum : Nat) : ℚ :=
  (((houseRect houseNum).minX : ℚ) + ((houseRect houseNum).maxX : ℚ)) / 2

/-- `planetY` of a South-chart house: top of its rectangle plus 25
(south_chart.go line 320). -/
def southPlanetY (houseNum : Nat) : ℚ :=
  ((houseRect houseNum).minY : ℚ) + 25

/-- The label draw calls of one South-chart house: anchors
`centerX ∓ 25`, start row `rect.Min.Y + 25`, vertical step 25
(south_chart.go lines 319-349). -/
def southCellOps (isSpecial : String → Bool) (input : ChartInput) (houseNum : Nat) : List DrawOp :=
  let cell := southHouseCell isSpecial input houseNum
  cellDrawOps (southCenterX houseNum - 25) (southCenterX houseNum + 25)
    (southPlanetY houseNum) 25 cell.regular cell.special

/-- The `rashiPositions` planet-anchor coordinates for North positions
2..12 (north_chart.go lines 129-156, fields planetX/planetY). -/
def northPlanetAnchor (position : Nat) : ℚ × ℚ :=
  match position with
  | 2 => (180, 70)
  | 3 => (60, 150)
  | 4 => (200, 310)
  | 5 => (60, 500)
  | 6 => (180, 640)
  | 7 => (380, 480)
  | 8 => (540, 660)
  | 9 => (690, 500)
  | 10 => (550, 330)
  | 11 => (700, 130)
  | 12 => (520, 70)
  | _ => (0, 0)

/-- Regular-group anchor x of a North position: 360 for position 1
(north_chart.go line 234), else the table anchor minus 20 (line 319). -/
def northLeftX (position : Nat) : ℚ :=
  if position = 1 then 360 else (northPlanetAnchor position).1 - 20

/-- Special-group anchor x of a North position: 400 for position 1
(north_chart.go line 235), else the table anchor plus 20 (line 320). -/
def northRightX (position : Nat) : ℚ :=
  if position = 1 then 400 else (northPlanetAnchor position).1 + 20

/-- Start row of a North position's label stack: 140 for position 1
(north_chart.go line 236), else the table anchor y. -/
def northBaseY (position : Nat) : ℚ :=
  if position = 1 then 140 else (northPlanetAnchor position).2

/-- The label draw calls of one North-chart position: position 1 uses the
fixed anchors leftX 360 / rightX 400 / y 140 (lines 232-263); positions
2..12 use `baseX ∓ 20` around the table anchor (lines 301-347); the
vertical step is 20 everywhere. -/
def northCellOps (isSpecial : String → Bool) (input : ChartInput) (position : Nat) : List DrawOp :=
  let cell := northPositionCell isSpecial input position
  cellDrawOps (northLeftX position) (northRightX position) (northBaseY position) 20
    cell.regular cell.special

/-- A trivial classification predicate (no label is a special lagna), used
to instantiate witnesses and concrete counterexamples. -/
def noSpecial : String → Bool := fun _ => false

example : RashiToNumber "Leo" = 5 := by decide
example : RashiToNumber "xyz" = 0 := by decide
example : suffixedLabel "sun" { rashi := "aries", isRetrograde := true, isCombust := true } = "SuRC" := by decide
example :
    (southHouseCell noSpecial
      { chartType := "south",
        planets := [("sun", { rashi := "aries" }), ("moon", { rashi := "aries" })],
        lagna := some { rashi := "aries" } } 1).regular = ["Asc", "Su", "Mo"] := by decide
example : getRashiForPosition 5 2 = 6 ∧ getRashiForPosition 5 12 = 4 := by decide

/-! ## Helper lemmas about the occupant-collection fold -/

theorem lagnaRashiOf_pos (l : Option Planet) : 0 < lagnaRashiOf l := by
  unfold lagnaRashiOf
  split <;> omega

/-- The fold only ever appends: its result is the initial accumulator
followed by what scanning from empty accumulators produces. -/
theorem collectPlanets_acc (isSpecial : String → Bool) (rashiNum : Nat)
    (ps : List (String × Planet)) (a b : List String) :
    collectPlanets isSpecial rashiNum ps (a, b) =
      (a ++ (collectPlanets isSpecial rashiNum ps ([], [])).1,
        b ++ (collectPlanets isSpecial rashiNum ps ([], [])).2) := by
  induction ps generalizing a b with
  | nil => simp [collectPlanets]
  | cons e ps ih =>
    simp only [collectPlanets]
    by_cases h1 : 0 < RashiToNumber e.2.rashi ∧ RashiToNumber e.2.rashi = rashiNum
    · simp only [if_pos h1]
      by_cases h2 : IsSpecialLagnaAbbrev isSpecial (suffixedLabel e.1 e.2) = true
      · simp only [h2, if_true]
        rw [ih a (b ++ [suffixedLabel e.1 e.2]), ih [] ([] ++ [suffixedLabel e.1 e.2])]
        simp
      · simp only [if_neg h2]
        rw [ih (a ++ [suffixedLabel e.1 e.2]) b, ih ([] ++ [suffixedLabel e.1 e.2]) []]
        simp
    · simp only [if_neg h1]
      exact ih a b

theorem collectPlanets_append (isSpecial : String → Bool) (rashiNum : Nat)
    (xs ys : List (String × Planet)) (acc : List String × List String) :
    collectPlanets isSpecial rashiNum (xs ++ ys) acc =
      collectPlanets isSpecial rashiNum ys (collectPlanets isSpecial rashiNum xs acc) := by
  induction xs generalizing acc with
  | nil => simp [collectPlanets]
  | cons e xs ih =>
    simp only [List.cons_append, collectPlanets]
    exact ih _

/-- An entry whose sign name does not resolve fails the `planetRashiNum > 0`
guard and leaves the accumulator untouched. -/
theorem collectPlanets_skip (isSpecial : String → Bool) (rashiNum : Nat)
    (e : String × Planet) (ps : List (String × Planet)) (acc : List String × List String)
    (h : RashiToNumber e.2.rashi = 0) :
    collectPlanets isSpecial rashiNum (e :: ps) acc =
      collectPlanets isSpecial rashiNum ps acc := by
  simp [collectPlanets, h]

/-- Multiset view of the fold: together, the two groups collect exactly the
suffixed labels of the entries passing the sign filter, on top of the
initial accumulators. -/
theorem collectPlanets_multiset (isSpecial : String → Bool) (rashiNum : Nat)
    (ps : List (String × Planet)) (a b : List String) :
    (((collectPlanets isSpecial rashiNum ps (a, b)).1 : Multiset String) +
        ((collectPlanets isSpecial rashiNum ps (a, b)).2 : Multiset String)) =
      (a : Multiset String) + (b : Multiset String) +
        (((ps.filter fun e =>
            decide (0 < RashiToNumber e.2.rashi ∧ RashiToNumber e.2.rashi = rashiNum)).map
          fun e => suffixedLabel e.1 e.2 : List String) : Multiset String) := by
  induction ps generalizing a b with
  | nil => simp [collectPlanets]
  | cons e ps ih =>
    simp only [collectPlanets, List.filter_cons]
    by_cases h1 : 0 < RashiToNumber e.2.rashi ∧ RashiToNumber e.2.rashi = rashiNum
    · have hd : decide (0 < RashiToNumber e.2.rashi ∧ RashiToNumber e.2.rashi = rashiNum) = true := by
        simpa using h1
      rw [if_pos h1, if_pos hd]
      by_cases h2 : IsSpecialLagnaAbbrev isSpecial (suffixedLabel e.1 e.2) = true
      · rw [if_pos h2, ih, List.map_cons]
        have e1 : ((b ++ [suffixedLabel e.1 e.2] : List String) : Multiset String) =
            (b : Multiset String) + ↑([suffixedLabel e.1 e.2] : List String) := by
          exact_mod_cast rfl
        have e2 : ((suffixedLabel e.1 e.2 ::
              (ps.filter fun x =>
                decide (0 < RashiToNumber x.2.rashi ∧ RashiToNumber x.2.rashi = rashiNum)).map
                (fun x => suffixedLabel x.1 x.2) : List String) : Multiset String) =
            ↑([suffixedLabel e.1 e.2] : List String) +
              (((ps.filter fun x =>
                  decide (0 < RashiToNumber x.2.rashi ∧ RashiToNumber x.2.rashi = rashiNum)).map
                (fun x => suffixedLabel x.1 x.2) : List String) : Multiset String) := by
          exact_mod_cast rfl
        rw [e1, e2]
        abel
      · rw [if_neg h2, ih, List.map_cons]
        have e1 : ((a ++ [suffixedLabel e.1 e.2] : List String) : Multiset String) =
            (a : Multiset String) + ↑([suffixedLabel e.1 e.2] : List String) := by
          exact_mod_cast rfl
        have e2 : ((suffixedLabel e.1 e.2 ::
              (ps.filter fun x =>
                decide (0 < RashiToNumber x.2.rashi ∧ RashiToNumber x.2.rashi = rashiNum)).map
                (fun x => suffixedLabel x.1 x.2) : List String) : Multiset String) =
            ↑([suffixedLabel e.1 e.2] : List String) +
              (((ps.filter fun x =>
                  decide (0 < RashiToNumber x.2.rashi ∧ RashiToNumber x.2.rashi = rashiNum)).map
                (fun x => suffixedLabel x.1 x.2) : List String) : Multiset String) := by
          exact_mod_cast rfl
        rw [e1, e2]
        abel
    · have hd : decide (0 < RashiToNumber e.2.rashi ∧ RashiToNumber e.2.rashi = rashiNum) = false := by
        simpa using h1
      rw [if_neg h1, if_neg (by simp [hd])]
      exact ih a b

/-- A planet entry whose sign matches contributes its suffixed label to one
of the two groups. -/
theorem collectPlanets_mem (isSpecial : String → Bool) (rashiNum : Nat)
    (ps : List (String × Planet)) (a b : List String) (name : String) (p : Planet)
    (hmem : (name, p) ∈ ps) (h1 : 0 < RashiToNumber p.rashi)
    (h2 : RashiToNumber p.rashi = rashiNum) :
    suffixedLabel name p ∈
      (collectPlanets isSpecial rashiNum ps (a, b)).1 ++
        (collectPlanets isSpecial rashiNum ps (a, b)).2 := by
  have hfil : (name, p) ∈ ps.filter fun e =>
      decide (0 < RashiToNumber e.2.rashi ∧ RashiToNumber e.2.rashi = rashiNum) :=
    List.mem_filter.mpr ⟨hmem, by simpa using ⟨h1, h2⟩⟩
  have hmap : suffixedLabel name p ∈
      (ps.filter fun e =>
        decide (0 < RashiToNumber e.2.rashi ∧ RashiToNumber e.2.rashi = rashiNum)).map
        fun e => suffixedLabel e.1 e.2 :=
    List.mem_map_of_mem _ hfil
  have hin : suffixedLabel name p ∈
      (((collectPlanets isSpecial rashiNum ps (a, b)).1 : Multiset String) +
        ((collectPlanets isSpecial rashiNum ps (a, b)).2 : Multiset String)) := by
    rw [collectPlanets_multiset]
    exact Multiset.mem_add.mpr (Or.inr (Multiset.mem_coe.mpr hmap))
  rcases Multiset.mem_add.mp hin with h | h
  · exact List.mem_append.mpr (Or.inl (Multiset.mem_coe.mp h))
  · exact List.mem_append.mpr (Or.inr (Multiset.mem_coe.mp h))

/-- When a lagna is present, the house whose number is the (defaulted)
lagna sign opens its regular group with the lagna's unsuffixed label. -/
theorem southHouseCell_lagna_head (isSpecial : String → Bool) (input : ChartInput)
    (q : Planet) (hq : input.lagna = some q) :
    (southHouseCell isSpecial input (lagnaRashiOf input.lagna)).regular.head? =
      some (GetPlanetDisplayName "lagna" q) := by
  have hsome : input.lagna.isSome = true := by rw [hq]; rfl
  have hpos : 0 < lagnaRashiOf input.lagna := lagnaRashiOf_pos input.lagna
  simp only [southHouseCell, southHouseCellCore, hsome, hpos, decide_true_eq_true,
    decide_eq_true_eq, Bool.true_and, Bool.and_true, decide_eq_true, if_true]
  rw [collectPlanets_acc]
  simp [lagnaLabelOf, hq]

/-! ## Helper lemmas about the label draw loops -/

theorem drawStack_mem (x y0 step ax : ℚ) (ls : List String) (i0 i : Nat) (h : i < ls.length) :
    ({ text := ls.get ⟨i, h⟩, x := x, y := y0 + ((i0 + i : Nat) : ℚ) * step, ax := ax } : DrawOp) ∈
      drawStack x y0 step ax ls i0 := by
  induction ls generalizing i0 i with
  | nil => simp at h
  | cons l ls ih =>
    cases i with
    | zero =>
      simp [drawStack]
    | succ n =>
      have harith : i0 + (n + 1) = (i0 + 1) + n := by omega
      rw [harith]
      exact List.mem_cons_of_mem _ (ih (i0 + 1) n (by simpa using h))

theorem drawSpecialOps_mem (x y0 step : ℚ) (ls : List String) (m i : Nat)
    (h : i < ls.length) (hm : i < m) :
    ({ text := ls.get ⟨i, h⟩, x := x, y := y0 + (i : ℚ) * step, ax := 0 } : DrawOp) ∈
      drawSpecialOps x y0 step ls m := by
  unfold drawSpecialOps
  refine List.mem_filterMap.mpr ⟨i, List.mem_range.mpr hm, ?_⟩
  rw [List.get?_eq_get h]
  rfl

theorem cellDrawOps_mem_regular (leftX rightX y0 step : ℚ) (regular special : List String)
    (i : Nat) (hi : i < regular.length) :
    ({ text := regular.get ⟨i, hi⟩, x := leftX, y := y0 + (i : ℚ) * step, ax := 1 } : DrawOp) ∈
      cellDrawOps leftX rightX y0 step regular special := by
  unfold cellDrawOps
  rw [if_pos (Or.inl (by omega))]
  refine List.mem_append_left _ ?_
  have := drawStack_mem leftX y0 step 1 regular 0 i hi
  simpa using this

theorem cellDrawOps_mem_special (leftX rightX y0 step : ℚ) (regular special : List String)
    (j : Nat) (hj : j < special.length) :
    ({ text := special.get ⟨j, hj⟩, x := rightX, y := y0 + (j : ℚ) * step, ax := 0 } : DrawOp) ∈
      cellDrawOps leftX rightX y0 step regular special := by
  unfold cellDrawOps
  rw [if_pos (Or.inr (by omega))]
  refine List.mem_append_right _ ?_
  exact drawSpecialOps_mem rightX y0 step special _ j hj
    (lt_of_lt_of_le hj (le_max_right regular.length special.length))

/-! ## Claim theorems -/

/-- Claim C4: for every request whose chart style is neither of the two
supported styles (and not the separately handled empty string),
`GenerateChart` fails with an error naming the offending style value and
produces no chart output (the error branch carries no image bytes). -/
theorem generateChart_unsupported_style (isSpecial : String → Bool) (input : ChartInput)
    (h0 : input.chartType ≠ "") (hs : input.chartType ≠ "south") (hn : input.chartType ≠ "north") :
    GenerateChart isSpecial input =
      Except.error ("unsupported chart type: " ++ input.chartType) := by
  simp [GenerateChart, h0, hs, hn]

/-- Witness for C4 at the spec's scenario: the declared but unsupported
style "east". -/
theorem generateChart_unsupported_style_witness :
    ({ chartType := "east" } : ChartInput).chartType ≠ "" ∧
      GenerateChart noSpecial { chartType := "east" } =
        Except.error ("unsupported chart type: " ++ ({ chartType := "east" } : ChartInput).chartType) :=
  ⟨by decide,
    generateChart_unsupported_style noSpecial { chartType := "east" }
      (by decide) (by decide) (by decide)⟩

/-- Claim C10: a request whose chart style field is the empty string fails
with the dedicated error "chart_type is required", which differs from the
unsupported-style error text, and produces no chart output. -/
theorem generateChart_empty_style (isSpecial : String → Bool) (input : ChartInput)
    (h : input.chartType = "") :
    GenerateChart isSpecial input = Except.error "chart_type is required" ∧
      ("chart_type is required" : String) ≠ "unsupported chart type: " ++ input.chartType := by
  constructor
  · simp [GenerateChart, h]
  · rw [h]
    decide

/-- Witness for C10: the empty style on an otherwise well-formed request. -/
theorem generateChart_empty_style_witness :
    ({ chartType := "" } : ChartInput).chartType = "" ∧
      GenerateChart noSpecial { chartType := "" } = Except.error "chart_type is required" :=
  ⟨by decide, (generateChart_empty_style noSpecial { chartType := "" } (by decide)).1⟩

/-- Claim C5: in the rotating (North) style, for every ascendant sign A in
1..12 and every slot N in 1..12, the resolved slot sign is
((A - 1 + N - 1) mod 12) + 1 — slot 1 is A itself — and the 12 resolved
signs for a fixed A are a permutation of 1..12 with no repeats. -/
theorem getRashiForPosition_cyclic (A : Nat) (h1 : 1 ≤ A) (h2 : A ≤ 12) :
    (∀ N ∈ Finset.Icc 1 12, getRashiForPosition A N = (A - 1 + N - 1) % 12 + 1) ∧
      ((List.range 12).map fun k => getRashiForPosition A (k + 1)).Perm
        ((List.range 12).map fun k => k + 1) := by
  interval_cases A <;> exact ⟨by decide, by decide⟩

/-- Witness for C5 at the spec's scenario: ascendant Leo (5); slot 2
resolves to Virgo (6) and slot 12 wraps around to Cancer (4). -/
theorem getRashiForPosition_cyclic_witness :
    1 ≤ 5 ∧ 5 ≤ 12 ∧ getRashiForPosition 5 2 = 6 ∧ getRashiForPosition 5 12 = 4 := by
  have h := getRashiForPosition_cyclic 5 (by decide) (by decide)
  have h2 := h.1 2 (by decide)
  have h12 := h.1 12 (by decide)
  norm_num at h2 h12
  exact ⟨by decide, by decide, h2, h12⟩

instance : DecidableEq (Except String ChartOutput) := fun x y =>
  match x, y with
  | .error a, .error b =>
    if h : a = b then isTrue (by rw [h]) else isFalse (by simp [h])
  | .ok a, .ok b =>
    if h : a = b then isTrue (by rw [h]) else isFalse (by simp [h])
  | .error _, .ok _ => isFalse (fun hc => Except.noConfusion hc)
  | .ok _, .error _ => isFalse (fun hc => Except.noConfusion hc)

/-- C1 input: the planet map {sun ↦ Aries, moon ↦ Aries} in one iteration
order. -/
def orderInputA : ChartInput :=
  { chartType := "south",
    planets := [("sun", { rashi := "aries" }), ("moon", { rashi := "aries" })] }

/-- C1 input: the same planet map in the other iteration order. -/
def orderInputB : ChartInput :=
  { chartType := "south",
    planets := [("moon", { rashi := "aries" }), ("sun", { rashi := "aries" })] }

/-- Claim C1 (code behavior at the failing input): the two association
lists are the same finite map — permutations of each other with distinct
keys — yet the generated chart differs, because the occupant labels of the
shared sign stack in iteration order ("Su","Mo" versus "Mo","Su").  Go
randomizes map iteration order per run, so `GenerateChart` is not
byte-identical across runs for this input; the spec itself flags the
source's unordered iteration as a defect (spec §9). -/
theorem generateChart_map_order_dependent :
    orderInputA.planets.Perm orderInputB.planets ∧
      (southHouseCell noSpecial orderInputA 1).regular = ["Su", "Mo"] ∧
      (southHouseCell noSpecial orderInputB 1).regular = ["Mo", "Su"] ∧
      GenerateChart noSpecial orderInputA ≠ GenerateChart noSpecial orderInputB :=
  ⟨by decide, by decide, by decide, by decide⟩

/-- Claim C6: in the fixed (South) style, for every slot N in 1..12 and
regardless of the ascendant sign, the sign displayed in slot N is N itself,
and occupant collection uses exactly that sign: together the two groups
hold the lagna label (when the defaulted lagna sign is N) plus precisely
the suffixed labels of the planets whose resolved sign equals N. -/
theorem southHouseCell_sign_identity (isSpecial : String → Bool) (input : ChartInput)
    (N : Nat) (h1 : 1 ≤ N) (h2 : N ≤ 12) :
    (southHouseCell isSpecial input N).rashiLabel = toString N ∧
      (((southHouseCell isSpecial input N).regular : Multiset String) +
          ((southHouseCell isSpecial input N).special : Multiset String)) =
        (if input.lagna.isSome = true ∧ lagnaRashiOf input.lagna = N then
            ({lagnaLabelOf input.lagna} : Multiset String)
          else 0) +
          (((input.planets.filter fun e => decide (RashiToNumber e.2.rashi = N)).map
            fun e => suffixedLabel e.1 e.2 : List String) : Multiset String) := by
  constructor
  · rfl
  · simp only [southHouseCell, southHouseCellCore]
    rw [collectPlanets_multiset]
    have hfil : (input.planets.filter fun e =>
        decide (0 < RashiToNumber e.2.rashi ∧ RashiToNumber e.2.rashi = N)) =
        input.planets.filter fun e => decide (RashiToNumber e.2.rashi = N) := by
      apply List.filter_congr
      intro e _
      apply decide_eq_decide.mpr
      constructor
      · rintro ⟨-, h⟩
        exact h
      · intro h
        exact ⟨by omega, h⟩
    rw [hfil]
    by_cases hb : input.lagna.isSome = true ∧ lagnaRashiOf input.lagna = N
    · have hp : 0 < N := hb.2 ▸ lagnaRashiOf_pos input.lagna
      have hbe : (input.lagna.isSome && decide (0 < lagnaRashiOf input.lagna) &&
          decide (N = lagnaRashiOf input.lagna)) = true := by
        simp [hb.1, hb.2, hp]
      rw [hbe, if_pos rfl, if_pos hb]
      simp
    · have hbe : (input.lagna.isSome && decide (0 < lagnaRashiOf input.lagna) &&
          decide (N = lagnaRashiOf input.lagna)) = false := by
        by_cases hs : input.lagna.isSome = true
        · have hL : ¬lagnaRashiOf input.lagna = N := fun hL => hb ⟨hs, hL⟩
          simp [hs, Ne.symm hL]
        · simp [Bool.not_eq_true] at hs
          simp [hs]
      rw [hbe, if_neg (by simp), if_neg hb]
      simp

/-- Witness for C6 at the spec's scenario: ascendant Aries, sun in Aries,
moon in Taurus; slot 1 shows sign 1 and holds {Asc, Su}, slot 2 shows
sign 2 and holds {Mo}. -/
theorem southHouseCell_sign_identity_witness :
    (1 : Nat) ≤ 1 ∧ (1 : Nat) ≤ 12 ∧
      (southHouseCell noSpecial orderInputA 1).rashiLabel = toString (1 : Nat) := by
  have h := southHouseCell_sign_identity noSpecial orderInputA 1 (by decide) (by decide)
  exact ⟨by decide, by decide, h.1⟩

/-- C7 input planet: retrograde and combust at once. -/
def retroCombustMars : Planet :=
  { rashi := "aries", isRetrograde := true, isCombust := true }

/-- C7 input: a single retrograde+combust planet. -/
def retroInput : ChartInput :=
  { chartType := "south", planets := [("mars", retroCombustMars)] }

/-- Claim C7: a planet entry with both flags set renders as its base label
(custom display name if present, else abbreviation) followed by exactly
"RC" — "R" before "C" — and that suffixed label is what lands in one of
the two groups of its sign's slot, in both chart styles. -/
theorem planet_retro_combust_label (isSpecial : String → Bool) (input : ChartInput)
    (name : String) (p : Planet) (N P : Nat)
    (hmem : (name, p) ∈ input.planets)
    (hr : p.isRetrograde = true) (hc : p.isCombust = true)
    (hsign : RashiToNumber p.rashi = N) (hN : 1 ≤ N)
    (hP : getRashiForPosition (lagnaRashiOf input.lagna) P = N) :
    suffixedLabel name p = GetPlanetDisplayName name p ++ "RC" ∧
      suffixedLabel name p ∈
        (southHouseCell isSpecial input N).regular ++
          (southHouseCell isSpecial input N).special ∧
      suffixedLabel name p ∈
        (northPositionCell isSpecial input P).regular ++
          (northPositionCell isSpecial input P).special := by
  have hpos : 0 < RashiToNumber p.rashi := by omega
  refine ⟨?_, ?_, ?_⟩
  · simp only [suffixedLabel, hr, hc, if_true]
    have hrc : ("R" ++ "C" : String) = "RC" := by decide
    rw [String.append_assoc, hrc]
  · simp only [southHouseCell, southHouseCellCore]
    exact collectPlanets_mem isSpecial N input.planets _ _ name p hmem hpos hsign
  · simp only [northPositionCell, northPositionCellCore]
    rw [hP]
    exact collectPlanets_mem isSpecial N input.planets _ _ name p hmem hpos hsign

/-- Witness for C7: Mars retrograde and combust in Aries, no ascendant
given (so North position 1 resolves to sign 1 as well). -/
theorem planet_retro_combust_label_witness :
    ("mars", retroCombustMars) ∈ retroInput.planets ∧
      retroCombustMars.isRetrograde = true ∧ retroCombustMars.isCombust = true ∧
      suffixedLabel "mars" retroCombustMars =
        GetPlanetDisplayName "mars" retroCombustMars ++ "RC" ∧
      suffixedLabel "mars" retroCombustMars ∈
        (southHouseCell noSpecial retroInput 1).regular ++
          (southHouseCell noSpecial retroInput 1).special ∧
      suffixedLabel "mars" retroCombustMars ∈
        (northPositionCell noSpecial retroInput 1).regular ++
          (northPositionCell noSpecial retroInput 1).special := by
  have h := planet_retro_combust_label noSpecial retroInput "mars" retroCombustMars 1 1
    (by decide) (by decide) (by decide) (by decide) (by decide) (by decide)
  exact ⟨by decide, by decide, by decide, h.1, h.2.1, h.2.2⟩

/-- Claim C8: the ascendant's rendered label is its display name with no
"R"/"C" suffix ever appended — it heads the regular group of the slot
matching its sign in both styles — and setting the retrograde/combust
flags on the ascendant entry leaves both rendered charts unchanged. -/
theorem lagna_label_unsuffixed (isSpecial : String → Bool) (input : ChartInput) (p : Planet)
    (r c : Bool) (hl : input.lagna = some p) :
    (southHouseCell isSpecial input (lagnaRashiOf input.lagna)).regular.head? =
        some (GetPlanetDisplayName "lagna" p) ∧
      (northPositionCell isSpecial input 1).regular.head? =
        some (GetPlanetDisplayName "lagna" p) ∧
      southChartModel isSpecial
          { input with lagna := some { p with isRetrograde := r, isCombust := c } } =
        southChartModel isSpecial input ∧
      northChartModel isSpecial
          { input with lagna := some { p with isRetrograde := r, isCombust := c } } =
        northChartModel isSpecial input := by
  refine ⟨southHouseCell_lagna_head isSpecial input p hl, ?_, ?_, ?_⟩
  · have hsome : input.lagna.isSome = true := by rw [hl]; rfl
    simp only [northPositionCell, northPositionCellCore, getRashiForPosition, if_pos rfl,
      hsome, decide_eq_true_eq, Bool.true_and, if_true]
    rw [collectPlanets_acc]
    simp [lagnaLabelOf, hl]
  · obtain ⟨ct, pl, lg, cx⟩ := input
    dsimp only at hl
    subst hl
    rfl
  · obtain ⟨ct, pl, lg, cx⟩ := input
    dsimp only at hl
    subst hl
    rfl

/-- C8 input planet: an ascendant entry with both flags incorrectly set. -/
def flaggedLeoLagna : Planet :=
  { rashi := "leo", isRetrograde := true, isCombust := true }

/-- C8 input: only that ascendant. -/
def flaggedLeoInput : ChartInput :=
  { chartType := "south", lagna := some flaggedLeoLagna }

/-- Witness for C8: ascendant in Leo with both flags incorrectly set. -/
theorem lagna_label_unsuffixed_witness :
    flaggedLeoInput.lagna = some flaggedLeoLagna ∧
      (southHouseCell noSpecial flaggedLeoInput
          (lagnaRashiOf flaggedLeoInput.lagna)).regular.head? =
        some (GetPlanetDisplayName "lagna" flaggedLeoLagna) := by
  have h := lagna_label_unsuffixed noSpecial flaggedLeoInput flaggedLeoLagna false false
    (by decide)
  exact ⟨by decide, h.1⟩

/-- C2 input: no ascendant at all. -/
def lagnaNoneInput : ChartInput := { chartType := "south" }

/-- C2 input: ascendant explicitly Aries. -/
def lagnaAriesInput : ChartInput :=
  { chartType := "south", lagna := some { rashi := "aries" } }

/-- Claim C2 counterexample: omitting the ascendant does NOT yield the
same output as explicitly supplying Aries — with no planets at all, the
Aries request draws an "Asc" label in slot 1 (and the lagna mark) while
the omitted-ascendant request draws nothing there, so the rendered charts
differ. -/
theorem omitted_lagna_differs_from_aries :
    GenerateChart noSpecial lagnaNoneInput ≠ GenerateChart noSpecial lagnaAriesInput ∧
      (southHouseCell noSpecial lagnaNoneInput 1).regular = [] ∧
      (southHouseCell noSpecial lagnaAriesInput 1).regular = ["Asc"] :=
  ⟨by decide, by decide, by decide⟩

/-- Claim C2 as amended: supplying an ascendant whose sign name is
unrecognized yields output identical to the same request with the
ascendant's sign replaced by Aries, for both chart styles (and at the
facade level); omitting the ascendant merely defaults the slot-sign
arithmetic to Aries but draws no ascendant label or mark, so it is not
output-identical to an explicit Aries ascendant. -/
theorem unknown_lagna_as_aries (isSpecial : String → Bool) (input : ChartInput) (p : Planet)
    (hl : input.lagna = some p) (hinv : RashiToNumber p.rashi = 0) :
    southChartModel isSpecial { input with lagna := some { p with rashi := "aries" } } =
        southChartModel isSpecial input ∧
      northChartModel isSpecial { input with lagna := some { p with rashi := "aries" } } =
        northChartModel isSpecial input ∧
      GenerateChart isSpecial { input with lagna := some { p with rashi := "aries" } } =
        GenerateChart isSpecial input := by
  obtain ⟨ct, pl, lg, cx⟩ := input
  dsimp only at hl
  subst hl
  have ha : RashiToNumber "aries" = 1 := by decide
  have h1 : lagnaRashiOf (some { p with rashi := "aries" }) = lagnaRashiOf (some p) := by
    simp [lagnaRashiOf, lagnaRashiRaw, hinv, ha]
  have hs : southChartModel isSpecial
      { chartType := ct, planets := pl, lagna := some { p with rashi := "aries" },
        centerText := cx } =
      southChartModel isSpecial
        { chartType := ct, planets := pl, lagna := some p, centerText := cx } := by
    simp only [southChartModel]
    rw [h1]
    rfl
  have hn : northChartModel isSpecial
      { chartType := ct, planets := pl, lagna := some { p with rashi := "aries" },
        centerText := cx } =
      northChartModel isSpecial
        { chartType := ct, planets := pl, lagna := some p, centerText := cx } := by
    simp only [northChartModel]
    rw [h1]
    rfl
  refine ⟨hs, hn, ?_⟩
  simp only [GenerateChart]
  rw [hs, hn]

/-- C2's unrecognized-sign lagna. -/
def mysteryLagna : Planet := { rashi := "xyz" }

/-- C2 witness input: ascendant with unrecognized sign name. -/
def mysteryInput : ChartInput := { chartType := "south", lagna := some mysteryLagna }

/-- Witness for the amended C2: sign name "xyz" behaves like Aries. -/
theorem unknown_lagna_as_aries_witness :
    mysteryInput.lagna = some mysteryLagna ∧ RashiToNumber mysteryLagna.rashi = 0 ∧
      southChartModel noSpecial
          { mysteryInput with lagna := some { mysteryLagna with rashi := "aries" } } =
        southChartModel noSpecial mysteryInput := by
  have h := unknown_lagna_as_aries noSpecial mysteryInput mysteryLagna (by decide) (by decide)
  exact ⟨by decide, by decide, h.1⟩

/-- C3 counterexample input: one planet with an unresolvable sign name. -/
def invalidSunInput : ChartInput :=
  { chartType := "south", planets := [("sun", { rashi := "plutonia" })] }

/-- Claim C3 counterexample: a planet whose sign name does not resolve is
NOT placed in the slot whose sign is 1 — both groups of South house 1 and
of North position 1 (ascendant defaulted to Aries) stay empty, so the
planet is dropped from the chart instead of defaulting to Aries. -/
theorem invalid_planet_not_defaulted :
    GetPlanetAbbreviation "sun" = "Su" ∧
      (southHouseCell noSpecial invalidSunInput 1).regular = [] ∧
      (southHouseCell noSpecial invalidSunInput 1).special = [] ∧
      (northPositionCell noSpecial invalidSunInput 1).regular = [] ∧
      (northPositionCell noSpecial invalidSunInput 1).special = [] :=
  ⟨by decide, by decide, by decide, by decide, by decide⟩

/-- Claim C3 as amended: rendering never fails on unresolvable sign
names, but the two kinds of points diverge — an ascendant with an
unresolvable sign is treated as Sign 1 (Aries) and its label placed
accordingly, while a planet entry with an unresolvable sign is omitted
from every slot of both styles. -/
theorem invalid_sign_policy (isSpecial : String → Bool) (input : ChartInput)
    (name : String) (p : Planet) (pre post : List (String × Planet)) (q : Planet) (N P : Nat)
    (hpl : input.planets = pre ++ (name, p) :: post)
    (hinv : RashiToNumber p.rashi = 0) :
    southHouseCell isSpecial input N =
        southHouseCell isSpecial { input with planets := pre ++ post } N ∧
      northPositionCell isSpecial input P =
        northPositionCell isSpecial { input with planets := pre ++ post } P ∧
      (input.lagna = some q → RashiToNumber q.rashi = 0 →
        lagnaRashiOf input.lagna = 1 ∧
          (southHouseCell isSpecial input 1).regular.head? =
            some (GetPlanetDisplayName "lagna" q)) := by
  obtain ⟨ct, pl, lg, cx⟩ := input
  dsimp only at hpl
  subst hpl
  have hcd : ∀ r acc, collectPlanets isSpecial r (pre ++ (name, p) :: post) acc =
      collectPlanets isSpecial r (pre ++ post) acc := by
    intro r acc
    rw [collectPlanets_append, collectPlanets_append, collectPlanets_skip]
    exact hinv
  refine ⟨?_, ?_, ?_⟩
  · simp only [southHouseCell, southHouseCellCore]
    rw [hcd]
  · simp only [northPositionCell, northPositionCellCore]
    rw [hcd]
  · intro hq hqinv
    dsimp only at hq
    have hL : lagnaRashiOf lg = 1 := by
      simp [lagnaRashiOf, lagnaRashiRaw, hq, hqinv]
    constructor
    · exact hL
    · have hhead := southHouseCell_lagna_head isSpecial
        ⟨ct, pre ++ (name, p) :: post, lg, cx⟩ q hq
      dsimp only at hhead
      rw [hL] at hhead
      exact hhead

/-- C3 witness input: an unresolvable planet sign and an unresolvable
ascendant sign together. -/
def invalidBothInput : ChartInput :=
  { chartType := "south", planets := [("sun", { rashi := "plutonia" })],
    lagna := some { rashi := "abc" } }

/-- Witness for the amended C3 at a concrete input. -/
theorem invalid_sign_policy_witness :
    invalidBothInput.planets = [] ++ ("sun", ({ rashi := "plutonia" } : Planet)) :: [] ∧
      RashiToNumber ({ rashi := "plutonia" } : Planet).rashi = 0 ∧
      southHouseCell noSpecial invalidBothInput 1 =
        southHouseCell noSpecial { invalidBothInput with planets := [] ++ [] } 1 ∧
      lagnaRashiOf invalidBothInput.lagna = 1 ∧
      (southHouseCell noSpecial invalidBothInput 1).regular.head? =
        some (GetPlanetDisplayName "lagna" ({ rashi := "abc" } : Planet)) := by
  have h := invalid_sign_policy noSpecial invalidBothInput "sun" { rashi := "plutonia" }
    [] [] { rashi := "abc" } 1 1 (by decide) (by decide)
  exact ⟨by decide, by decide, h.1,
    (h.2.2 (by decide) (by decide)).1, (h.2.2 (by decide) (by decide)).2⟩

/-- Claim C9: in both styles, the i-th regular-group label and the i-th
special-group label of a slot are drawn at the same vertical coordinate —
the anchor y plus i times the fixed vertical step (25 in the South style,
20 in the North style) — the regular one anchored at the left offset
(anchor value 1) and the special one at the mirrored right offset (anchor
value 0); entries beyond the shorter group still draw at their own
index's offset, as the four independent index hypotheses show. -/
theorem slot_label_pairing (isSpecial : String → Bool) (input : ChartInput)
    (N P i j k m : Nat)
    (hi : i < (southHouseCell isSpecial input N).regular.length)
    (hj : j < (southHouseCell isSpecial input N).special.length)
    (hk : k < (northPositionCell isSpecial input P).regular.length)
    (hm : m < (northPositionCell isSpecial input P).special.length) :
    ({ text := (southHouseCell isSpecial input N).regular.get ⟨i, hi⟩,
        x := southCenterX N - 25, y := southPlanetY N + (i : ℚ) * 25, ax := 1 } : DrawOp) ∈
        southCellOps isSpecial input N ∧
      ({ text := (southHouseCell isSpecial input N).special.get ⟨j, hj⟩,
          x := southCenterX N + 25, y := southPlanetY N + (j : ℚ) * 25, ax := 0 } : DrawOp) ∈
        southCellOps isSpecial input N ∧
      ({ text := (northPositionCell isSpecial input P).regular.get ⟨k, hk⟩,
          x := northLeftX P, y := northBaseY P + (k : ℚ) * 20, ax := 1 } : DrawOp) ∈
        northCellOps isSpecial input P ∧
      ({ text := (northPositionCell isSpecial input P).special.get ⟨m, hm⟩,
          x := northRightX P, y := northBaseY P + (m : ℚ) * 20, ax := 0 } : DrawOp) ∈
        northCellOps isSpecial input P := by
  refine ⟨?_, ?_, ?_, ?_⟩
  · exact cellDrawOps_mem_regular _ _ _ _ _ _ i hi
  · exact cellDrawOps_mem_special _ _ _ _ _ _ j hj
  · exact cellDrawOps_mem_regular _ _ _ _ _ _ k hk
  · exact cellDrawOps_mem_special _ _ _ _ _ _ m hm

/-- C9's classification predicate: exactly the label "SL" is a special
lagna. -/
def slLabel : String → Bool := fun s => s == "SL"

/-- C9 witness input: one regular planet and one specially-classified
point sharing the sign Aries. -/
def pairInput : ChartInput :=
  { chartType := "south",
    planets := [("sun", { rashi := "aries" }),
      ("mandi", { rashi := "aries", isUpagraha := true, display := "SL" })] }

/-- Witness for C9: with sun and a special point both in Aries, the
index-0 regular and special labels of South house 1 and of North
position 1 share their rows at the mirrored anchors. -/
theorem slot_label_pairing_witness :
    0 < (southHouseCell slLabel pairInput 1).regular.length ∧
      0 < (southHouseCell slLabel pairInput 1).special.length ∧
      0 < (northPositionCell slLabel pairInput 1).regular.length ∧
      0 < (northPositionCell slLabel pairInput 1).special.length ∧
      ({ text := "Su", x := southCenterX 1 - 25, y := southPlanetY 1 + (0 : ℚ) * 25,
          ax := 1 } : DrawOp) ∈ southCellOps slLabel pairInput 1 ∧
      ({ text := "SL", x := southCenterX 1 + 25, y := southPlanetY 1 + (0 : ℚ) * 25,
          ax := 0 } : DrawOp) ∈ southCellOps slLabel pairInput 1 ∧
      ({ text := "Su", x := northLeftX 1, y := northBaseY 1 + (0 : ℚ) * 20,
          ax := 1 } : DrawOp) ∈ northCellOps slLabel pairInput 1 ∧
      ({ text := "SL", x := northRightX 1, y := northBaseY 1 + (0 : ℚ) * 20,
          ax := 0 } : DrawOp) ∈ northCellOps slLabel pairInput 1 := by
  have h := slot_label_pairing slLabel pairInput 1 1 0 0 0 0
    (by decide) (by decide) (by decide) (by decide)
  exact ⟨by decide, by decide, by decide, by decide, h.1, h.2.1, h.2.2.1, h.2.2.2⟩

end Parashari
